import Mathlib

/-!
Verification of the WAMP client (`src/client.rs` of greyblake/wamp-rs).

Shallow embedding: the client's pure logic is translated into Lean
functions; the mutex-guarded mutable state (`ConnectionInfo`) is passed
explicitly; the websocket sender is modelled by recording the frames whose
write is attempted, with a `writeOk` parameter standing for the success of
the underlying frame write; fallible operations return `Except`; a Rust
`.unwrap()` panic is modelled by `Option.none`.
-/

set_option autoImplicit false

namespace WampRs

/-- Dynamically typed protocol values (serde values); the client never
inspects them, so a small closed type suffices. -/
inductive Value where
  | int (i : Int)
  | str (s : String)
  | boolean (b : Bool)
  deriving DecidableEq, Repr

/-- Rust `List` in `messages.rs`: ordered positional arguments. -/
abbrev ArgList := List Value

/-- Rust `Dict` in `messages.rs`: keyword arguments. -/
abbrev Dict := List (String × Value)

/-- Rust `ID` in `messages.rs`: an unsigned 64-bit integer, modelled as `Nat`
with reduction mod `U64_MOD` at the one place arithmetic occurs. -/
abbrev ID := Nat

/-- Modulus of Rust's `u64`, used where `max_session_id` is incremented. -/
def U64_MOD : Nat := 2 ^ 64

/-- Rust `URI` in `messages.rs`: an opaque symbolic string. -/
structure URI where
  uri : String
  deriving DecidableEq, Repr

def URI.new (s : String) : URI := ⟨s⟩

/-- Modelled from the spec: `ClientRoles` of `messages.rs` (not under
`src/`) is the capability-advertisement record; no claim inspects it. -/
inductive ClientRoles where
  | new
  deriving DecidableEq, Repr

/-- Modelled from the spec: `HelloDetails` of `messages.rs` carries the
client roles. -/
structure HelloDetails where
  roles : ClientRoles
  deriving DecidableEq, Repr

def HelloDetails.new (r : ClientRoles) : HelloDetails := ⟨r⟩

/-- Modelled from the spec: `WelcomeDetails` of `messages.rs`; opaque
(`client.rs` matches it with a wildcard). -/
inductive WelcomeDetails where
  | new
  deriving DecidableEq, Repr

/-- Modelled from the spec: `ErrorDetails` of `messages.rs`; opaque. -/
inductive ErrorDetails where
  | new
  deriving DecidableEq, Repr

/-- Modelled from the spec: `EventDetails` of `messages.rs`; opaque
(`client.rs` matches it with a wildcard). -/
inductive EventDetails where
  | new
  deriving DecidableEq, Repr

/-- Modelled from the spec: `SubscribeOptions` of `messages.rs`; opaque. -/
inductive SubscribeOptions where
  | new
  deriving DecidableEq, Repr

/-- Modelled from the spec: `PublishOptions` of `messages.rs`; carries the
acknowledge flag (`PublishOptions::new(false)` in `client.rs`). -/
structure PublishOptions where
  acknowledge : Bool
  deriving DecidableEq, Repr

def PublishOptions.new (acknowledge : Bool) : PublishOptions := ⟨acknowledge⟩

/-- Modelled from the spec: `Reason` of `messages.rs`; the two reasons
`client.rs` constructs, plus an opaque case for received reasons. -/
inductive Reason where
  | GoodbyeAndOut
  | SystemShutdown
  | Other (s : String)
  deriving DecidableEq, Repr

/-- The protocol message variants, shapes as pattern-matched in
`client.rs` and described in spec section 3. -/
inductive Message where
  | Hello (realm : URI) (details : HelloDetails)
  | Welcome (sessionId : ID) (details : WelcomeDetails)
  | Abort (details : ErrorDetails) (reason : Reason)
  | Goodbye (details : ErrorDetails) (reason : Reason)
  | Subscribe (requestId : ID) (options : SubscribeOptions) (topic : URI)
  | Subscribed (requestId : ID) (subscriptionId : ID)
  | Event (subscriptionId : ID) (publicationId : ID) (details : EventDetails)
  | EventArgs (subscriptionId : ID) (publicationId : ID) (details : EventDetails) (args : ArgList)
  | EventKwArgs (subscriptionId : ID) (publicationId : ID) (details : EventDetails)
      (args : ArgList) (kwargs : Dict)
  | Publish (requestId : ID) (options : PublishOptions) (topic : URI)
  | PublishKwArgs (requestId : ID) (options : PublishOptions) (topic : URI)
      (args : ArgList) (kwargs : Dict)
  deriving DecidableEq, Repr

/-- The `static WAMP_JSON` constant in `client.rs`. -/
def WAMP_JSON : String := "wamp.2.json"

/-- The `static WAMP_MSGPACK` constant in `client.rs`. -/
def WAMP_MSGPACK : String := "wamp.2.msgpack"

/-- The `enum ConnectionState` in `client.rs`. -/
inductive ConnectionState where
  | Connected
  | ShuttingDown
  | Disconnected
  deriving DecidableEq, Repr

/-- The `struct Subscription` in `client.rs` holds `Box<Fn(List, Dict)>`; a
boxed closure is an exclusively owned capability, modelled by a token
identifying it, so that invocation and table membership stay decidable. -/
structure Subscription where
  callback : Nat
  deriving DecidableEq, Repr

/-- The two `HashMap<ID, Subscription>` tables, modelled as association
lists with first-match lookup and whole-key erase (the unique-keys
invariant of a `HashMap` makes the two agree). -/
abbrev Table := List (ID × Subscription)

/-- Lookup, `HashMap::get`: first entry with the key. -/
def tableGet : Table → ID → Option Subscription
  | [], _ => none
  | (k, v) :: rest, key => if k = key then some v else tableGet rest key

/-- Removal of every entry with the key (on unique-keys tables, the one
entry, matching `HashMap::remove`'s effect on the map). -/
def tableErase : Table → ID → Table
  | [], _ => []
  | (k, v) :: rest, key =>
      if k = key then tableErase rest key else (k, v) :: tableErase rest key

/-- Insertion, `HashMap::insert`: bind the key to the value, replacing any previous
binding. -/
def tableInsert (t : Table) (key : ID) (v : Subscription) : Table :=
  (key, v) :: tableErase t key

/-- Removal, `HashMap::remove`: the removed value, and the table without the key. -/
def tableRemove (t : Table) (key : ID) : Option Subscription × Table :=
  (tableGet t key, tableErase t key)

/-- The `struct ConnectionInfo` in `client.rs`: the shared session state. The
`sender` field (the websocket write half) is modelled by the frame lists
the operations return, not stored here. -/
structure ConnectionInfo where
  connection_state : ConnectionState
  subscription_requests : Table
  subscriptions : Table
  protocol : String
  deriving DecidableEq, Repr

/-- The `struct Client` in `client.rs`. -/
structure Client where
  connection_info : ConnectionInfo
  max_session_id : ID
  id : ID
  deriving DecidableEq, Repr

/-- The relevant cases of `ErrorKind` from the crate root. -/
inductive ErrorKind where
  | WebSocketError
  | URLError
  | ConnectionLost
  | UnexpectedMessage (s : String)
  | JSONError
  | MsgPackError
  | MalformedData
  deriving DecidableEq, Repr

/-- Rust `WampResult<T>`. -/
abbrev WampResult (α : Type) := Except ErrorKind α

/-- Outbound websocket frames, as built by `client.rs`: `WSMessage::text`
of the JSON rendering, `WSMessage::binary` of the msgpack rendering,
`WSMessage::close`, `WSMessage::pong`. The payload of a data frame is the
message it serializes (serialization itself is injective and external). -/
inductive OutFrame where
  | text (m : Message)
  | binary (m : Message)
  | close
  | pong (payload : List Nat)
  deriving DecidableEq, Repr

/-- Function `send_message_json` in `client.rs`: serialize to JSON, attempt the
text-frame write; on failure log, best-effort write a close frame, and
return the error. The returned list is the frames whose write was
attempted, in order; `writeOk` is the success of the data-frame write. -/
def send_message_json (writeOk : Bool) (message : Message) :
    List OutFrame × WampResult Unit :=
  if writeOk then
    ([OutFrame.text message], Except.ok ())
  else
    ([OutFrame.text message, OutFrame.close], Except.error ErrorKind.WebSocketError)

/-- Function `send_message_msgpack` in `client.rs`: as `send_message_json` but a
binary frame of the msgpack (field-name-keyed map) rendering. -/
def send_message_msgpack (writeOk : Bool) (message : Message) :
    List OutFrame × WampResult Unit :=
  if writeOk then
    ([OutFrame.binary message], Except.ok ())
  else
    ([OutFrame.binary message, OutFrame.close], Except.error ErrorKind.WebSocketError)

/-- Free function `send_message` in `client.rs`: dispatch on the
negotiated protocol tag. -/
def send_message (writeOk : Bool) (protocol : String) (message : Message) :
    List OutFrame × WampResult Unit :=
  if protocol = WAMP_MSGPACK then
    send_message_msgpack writeOk message
  else
    send_message_json writeOk message

/-- The outcome of one `Connection::handle_message` call: the updated
shared state, the callback invocations performed (token, args, kwargs),
the frames whose write was attempted, and the returned continue flag. -/
structure HandleOutcome where
  info : ConnectionInfo
  invoked : List (Nat × ArgList × Dict)
  attempted : List OutFrame
  continueLoop : Bool
  deriving DecidableEq, Repr

/-- Function `Connection::handle_message` in `client.rs`. Here `none` models the
`.unwrap()` panic in the Goodbye/Connected branch when the reciprocal
Goodbye send fails (`writeOk = false`), which kills the dispatch thread. -/
def Connection.handle_message (message : Message) (info : ConnectionInfo)
    (writeOk : Bool) : Option HandleOutcome :=
  match message with
  | Message.Subscribed request_id subscription_id =>
      match (tableRemove info.subscription_requests request_id).1 with
      | some subscription =>
          some ⟨{ info with
                    subscription_requests :=
                      tableErase info.subscription_requests request_id,
                    subscriptions :=
                      tableInsert info.subscriptions subscription_id subscription },
                [], [], true⟩
      | none => some ⟨info, [], [], true⟩
  | Message.Event subscription_id _ _ =>
      match tableGet info.subscriptions subscription_id with
      | some subscription => some ⟨info, [(subscription.callback, [], [])], [], true⟩
      | none => some ⟨info, [], [], true⟩
  | Message.EventArgs subscription_id _ _ args =>
      match tableGet info.subscriptions subscription_id with
      | some subscription => some ⟨info, [(subscription.callback, args, [])], [], true⟩
      | none => some ⟨info, [], [], true⟩
  | Message.EventKwArgs subscription_id _ _ args kwargs =>
      match tableGet info.subscriptions subscription_id with
      | some subscription => some ⟨info, [(subscription.callback, args, kwargs)], [], true⟩
      | none => some ⟨info, [], [], true⟩
  | Message.Goodbye _ _ =>
      match info.connection_state with
      | ConnectionState.Connected =>
          let sent := send_message writeOk info.protocol
            (Message.Goodbye ErrorDetails.new Reason.GoodbyeAndOut)
          match sent.2 with
          | Except.ok _ => some ⟨info, [], sent.1, false⟩
          | Except.error _ => none
      | ConnectionState.ShuttingDown => some ⟨info, [], [], false⟩
      | ConnectionState.Disconnected => some ⟨info, [], [], false⟩
  | _ => some ⟨info, [], [], true⟩

/-- Method `Client::send_message` in `client.rs`: same protocol dispatch as the
free `send_message`, reading the tag from `connection_info`. -/
def Client.send_message (c : Client) (writeOk : Bool) (message : Message) :
    List OutFrame × WampResult Unit :=
  if c.connection_info.protocol = WAMP_MSGPACK then
    send_message_msgpack writeOk message
  else
    send_message_json writeOk message

/-- Method `Client::get_next_session_id` in `client.rs`: `self.max_session_id += 1`
(a `u64` increment, wrapping in release builds) and return it. -/
def Client.get_next_session_id (c : Client) : ID × Client :=
  let m := (c.max_session_id + 1) % U64_MOD
  (m, { c with max_session_id := m })

/-- Method `Client::subscribe` in `client.rs`: allocate the next request id,
register the callback in `subscription_requests` under it, then send
`Subscribe(request_id, default options, topic)`. Returns the send result,
the frames attempted, and the updated client. -/
def Client.subscribe (c : Client) (writeOk : Bool) (topic : URI)
    (callback : Subscription) : WampResult Unit × List OutFrame × Client :=
  let alloc := c.get_next_session_id
  let request_id := alloc.1
  let c1 := alloc.2
  let c2 := { c1 with
    connection_info := { c1.connection_info with
      subscription_requests :=
        tableInsert c1.connection_info.subscription_requests request_id callback } }
  let sent := c2.send_message writeOk
    (Message.Subscribe request_id SubscribeOptions.new topic)
  (sent.2, sent.1, c2)

/-- Method `Client::publish` in `client.rs`: allocate the next request id and send
`PublishKwArgs(request_id, PublishOptions::new(false), topic, args, kwargs)`;
the request id is not retained. -/
def Client.publish (c : Client) (writeOk : Bool) (topic : URI)
    (args : ArgList) (kwargs : Dict) : WampResult Unit × List OutFrame × Client :=
  let alloc := c.get_next_session_id
  let request_id := alloc.1
  let c1 := alloc.2
  let sent := c1.send_message writeOk
    (Message.PublishKwArgs request_id (PublishOptions.new false) topic args kwargs)
  (sent.2, sent.1, c1)

/-- Method `Client::shutdown` in `client.rs`: under the `connection_state` lock,
if Connected then send `Goodbye(ErrorDetails::new(), SystemShutdown)` —
discarding the send result with `.ok()` — and set the state to
ShuttingDown; otherwise do nothing. Returns no result to the caller. -/
def Client.shutdown (c : Client) (writeOk : Bool) : Client × List OutFrame :=
  if c.connection_info.connection_state = ConnectionState.Connected then
    let sent := c.send_message writeOk
      (Message.Goodbye ErrorDetails.new Reason.SystemShutdown)
    ({ c with connection_info := { c.connection_info with
         connection_state := ConnectionState.ShuttingDown } }, sent.1)
  else
    (c, [])

/-- Text-frame payload decode outcomes in the receive paths: `from_utf8`
can fail, then `serde_json::from_str` can fail. -/
inductive TextDecodeErr where
  | notUtf8
  | badJson
  deriving DecidableEq, Repr

/-- One step of the inbound websocket iterator `incoming_messages()`:
either a transport read error or a frame by opcode. Data-frame payload
decoding (external serde/rmp code) is abstracted by carrying its outcome. -/
inductive InFrame where
  | readErr
  | close
  | text (decoded : Except TextDecodeErr Message)
  | binary (decoded : Option Message)
  | ping (payload : List Nat)
  | pong
  deriving Repr

/-- Function `handle_welcome_message` in `client.rs`: scan incoming frames for the
first application-level message; close means the connection was lost, a
malformed text or binary payload is a decode error, pings are ponged,
pongs ignored; iterator end (connection gone) is ConnectionLost. Returns
the pong frames attempted and the result. -/
def handle_welcome_message : List InFrame → List OutFrame × WampResult Message
  | [] => ([], Except.error ErrorKind.ConnectionLost)
  | f :: rest =>
    match f with
    | InFrame.readErr => ([], Except.error ErrorKind.WebSocketError)
    | InFrame.close => ([], Except.error ErrorKind.ConnectionLost)
    | InFrame.text (Except.ok m) => ([], Except.ok m)
    | InFrame.text (Except.error TextDecodeErr.notUtf8) =>
        ([], Except.error ErrorKind.MalformedData)
    | InFrame.text (Except.error TextDecodeErr.badJson) =>
        ([], Except.error ErrorKind.JSONError)
    | InFrame.binary (some m) => ([], Except.ok m)
    | InFrame.binary none => ([], Except.error ErrorKind.MsgPackError)
    | InFrame.ping p =>
        let out := handle_welcome_message rest
        (OutFrame.pong p :: out.1, out.2)
    | InFrame.pong => handle_welcome_message rest

/-- The `protocols[0]` selection in `Connection::connect`: the router's first
offered subprotocol, defaulting to `wamp.2.json` (with a warning) when the
header is absent or empty. -/
def choose_protocol : Option (List String) → String
  | some (p :: _) => p
  | some [] => WAMP_JSON
  | none => WAMP_JSON

/-- Method `Connection::connect` in `client.rs`, from subprotocol negotiation on
(URL parsing and the websocket handshake are external; their failures
return before any of this runs). `helloWriteOk` is the success of the
Hello frame write; `frames` the inbound stream. The boolean records
whether `start_recv_loop` was called (a background task spawned). -/
def Connection.connect (realm : URI) (protocols : Option (List String))
    (helloWriteOk : Bool) (frames : List InFrame) : WampResult Client × Bool :=
  let protocol := choose_protocol protocols
  let info : ConnectionInfo :=
    { protocol := protocol
      subscription_requests := []
      subscriptions := []
      connection_state := ConnectionState.Connected }
  let hello := Message.Hello realm (HelloDetails.new ClientRoles.new)
  let helloRes :=
    if protocol = WAMP_MSGPACK then (send_message_msgpack helloWriteOk hello).2
    else (send_message_json helloWriteOk hello).2
  match helloRes with
  | Except.error e => (Except.error e, false)
  | Except.ok _ =>
    match (handle_welcome_message frames).2 with
    | Except.error e => (Except.error e, false)
    | Except.ok (Message.Welcome session_id _) =>
        (Except.ok { connection_info := info, id := session_id, max_session_id := 0 },
         true)
    | Except.ok (Message.Abort _ _) =>
        (Except.error ErrorKind.ConnectionLost, false)
    | Except.ok _ =>
        (Except.error (ErrorKind.UnexpectedMessage "Expected Welcome Message"), false)

/-- The epilogue after the receive loop in `Connection::start_recv_loop`
(lines 306-308): best-effort shutdown of the write and read halves, then
`connection_state = Disconnected` unconditionally. -/
def Connection.recv_loop_exit (info : ConnectionInfo) : ConnectionInfo :=
  { info with connection_state := ConnectionState.Disconnected }

/-- The receive loop body of `Connection::start_recv_loop`: a read error
or close frame sends a best-effort close and breaks; a data frame that
decodes is dispatched through `handle_message`, breaking when it returns
false; a payload that fails to decode is logged and skipped; pings are
ponged, pongs ignored. Every break and the iterator's end reach the
epilogue. `none` propagates a `handle_message` panic: the thread dies and
the epilogue never runs. -/
def Connection.start_recv_loop (frames : List InFrame) (writeOk : Bool)
    (info : ConnectionInfo) : Option ConnectionInfo :=
  match frames with
  | [] => some (Connection.recv_loop_exit info)
  | f :: rest =>
    match f with
    | InFrame.readErr => some (Connection.recv_loop_exit info)
    | InFrame.close => some (Connection.recv_loop_exit info)
    | InFrame.text (Except.ok m) =>
        match Connection.handle_message m info writeOk with
        | none => none
        | some out =>
            if out.continueLoop then Connection.start_recv_loop rest writeOk out.info
            else some (Connection.recv_loop_exit out.info)
    | InFrame.text (Except.error _) => Connection.start_recv_loop rest writeOk info
    | InFrame.binary (some m) =>
        match Connection.handle_message m info writeOk with
        | none => none
        | some out =>
            if out.continueLoop then Connection.start_recv_loop rest writeOk out.info
            else some (Connection.recv_loop_exit out.info)
    | InFrame.binary none => Connection.start_recv_loop rest writeOk info
    | InFrame.ping _ => Connection.start_recv_loop rest writeOk info
    | InFrame.pong => Connection.start_recv_loop rest writeOk info

/-- One caller-facing API call that allocates a request identifier. -/
inductive ApiCall where
  | subscribeCall (topic : URI) (callback : Subscription)
  | publishCall (topic : URI) (args : ArgList) (kwargs : Dict)
  deriving DecidableEq, Repr

/-- Run a sequence of subscribe/publish calls, collecting every frame
whose write was attempted, in order. -/
def run_calls (writeOk : Bool) : List ApiCall → Client → List OutFrame × Client
  | [], c => ([], c)
  | call :: rest, c =>
    let step :=
      match call with
      | ApiCall.subscribeCall t cb => (c.subscribe writeOk t cb).2
      | ApiCall.publishCall t a k => (c.publish writeOk t a k).2
    let tail := run_calls writeOk rest step.2
    (step.1 ++ tail.1, tail.2)

/-- The request identifier carried by a client-allocated outbound message. -/
def Message.requestIdOf : Message → Option ID
  | Message.Subscribe request_id _ _ => some request_id
  | Message.PublishKwArgs request_id _ _ _ _ => some request_id
  | _ => none

/-- The request identifiers visible in a frame list, in order. -/
def framesRequestIds (frames : List OutFrame) : List ID :=
  frames.filterMap fun f =>
    match f with
    | OutFrame.text m => m.requestIdOf
    | OutFrame.binary m => m.requestIdOf
    | _ => none

/-- The data frame a send with protocol `p` produces for message `m`. -/
def data_frame (p : String) (m : Message) : OutFrame :=
  if p = WAMP_MSGPACK then OutFrame.binary m else OutFrame.text m

/-- The callback tokens held in one table. -/
def cbTokens (t : Table) : List Nat :=
  t.map fun p => p.2.callback

/-- The callback tokens held across both tables; the ownership invariant
says this list has no duplicates. -/
def ConnectionInfo.tokens (info : ConnectionInfo) : List Nat :=
  cbTokens info.subscription_requests ++ cbTokens info.subscriptions

/-- Forward-only order on lifecycle states. -/
def ConnectionState.rank : ConnectionState → Nat
  | ConnectionState.Connected => 0
  | ConnectionState.ShuttingDown => 1
  | ConnectionState.Disconnected => 2

/-- The request identifiers `max_session_id` yields over `n` successive
allocations starting from counter value `s`. -/
def idSeq (s : Nat) : Nat → List ID
  | 0 => []
  | n + 1 => ((s + 1) % U64_MOD) :: idSeq ((s + 1) % U64_MOD) n

/-! Concrete fixtures used by witnesses and counterexamples. -/

/-- A concrete message. -/
def msg0 : Message := Message.Hello (URI.new "realm1") (HelloDetails.new ClientRoles.new)

/-- A concrete subscription capability. -/
def sub0 : Subscription := ⟨7⟩

/-- A concrete connected session over the JSON codec with empty tables. -/
def info0 : ConnectionInfo :=
  { connection_state := ConnectionState.Connected
    subscription_requests := []
    subscriptions := []
    protocol := WAMP_JSON }

/-- A concrete client over `info0`. -/
def client0 : Client := { connection_info := info0, max_session_id := 0, id := 42 }

/-! Basic send-path lemmas. -/

/-- The frames a send attempts: the single data frame, followed by the
best-effort close frame when the data-frame write failed. -/
theorem send_message_frames (writeOk : Bool) (p : String) (m : Message) :
    (send_message writeOk p m).1 =
      data_frame p m :: (if writeOk then [] else [OutFrame.close]) := by
  unfold send_message send_message_msgpack send_message_json data_frame
  by_cases hp : p = WAMP_MSGPACK <;> cases writeOk <;> simp [hp]

/-- The result of a send is `ok` exactly when the data-frame write
succeeded. -/
theorem send_message_result (writeOk : Bool) (p : String) (m : Message) :
    (send_message writeOk p m).2 =
      (if writeOk then Except.ok () else Except.error ErrorKind.WebSocketError) := by
  unfold send_message send_message_msgpack send_message_json
  by_cases hp : p = WAMP_MSGPACK <;> cases writeOk <;> simp [hp]

/-- Method `Client::send_message` agrees with the free `send_message` at the
session's negotiated tag. -/
theorem client_send_message_eq (c : Client) (writeOk : Bool) (m : Message) :
    c.send_message writeOk m = send_message writeOk c.connection_info.protocol m := by
  unfold Client.send_message send_message
  by_cases hp : c.connection_info.protocol = WAMP_MSGPACK <;> simp [hp]

/-- Claim C2: every outbound message on the client's send path is framed
purely by the negotiated codec tag — the tag `wamp.2.msgpack` yields the
binary (msgpack) frame, and any other tag, `wamp.2.json` or unrecognized,
yields the text (JSON) frame; this holds for the free `send_message` and
for `Client::send_message`. -/
theorem wire_format_of_tag (writeOk : Bool) (p : String) (m : Message) (c : Client) :
    (p = WAMP_MSGPACK →
      (send_message writeOk p m).1.head? = some (OutFrame.binary m)) ∧
    (p ≠ WAMP_MSGPACK →
      (send_message writeOk p m).1.head? = some (OutFrame.text m)) ∧
    (c.connection_info.protocol = WAMP_MSGPACK →
      (c.send_message writeOk m).1.head? = some (OutFrame.binary m)) ∧
    (c.connection_info.protocol ≠ WAMP_MSGPACK →
      (c.send_message writeOk m).1.head? = some (OutFrame.text m)) := by
  refine ⟨fun hp => ?_, fun hp => ?_, fun hp => ?_, fun hp => ?_⟩ <;>
    simp [send_message_frames, client_send_message_eq, data_frame, hp]

/-- Witness for C2 at concrete tags: the msgpack tag produces a binary
frame, the json tag and an unrecognized tag produce text frames. -/
theorem wire_format_of_tag_witness :
    (send_message true WAMP_MSGPACK msg0).1.head? = some (OutFrame.binary msg0) ∧
    (send_message true WAMP_JSON msg0).1.head? = some (OutFrame.text msg0) ∧
    (send_message true "wamp.2.cbor" msg0).1.head? = some (OutFrame.text msg0) :=
  ⟨(wire_format_of_tag true WAMP_MSGPACK msg0 client0).1 rfl,
   (wire_format_of_tag true WAMP_JSON msg0 client0).2.1 (by decide),
   (wire_format_of_tag true "wamp.2.cbor" msg0 client0).2.1 (by decide)⟩

/-- Claim C3: dispatching a received Goodbye while Connected sends one
reciprocal `Goodbye(GoodbyeAndOut)` on the write handle and returns the
continue flag false; while ShuttingDown it returns false without sending;
and Goodbye is the only message kind whose handling can return false. -/
theorem goodbye_dispatch (info : ConnectionInfo) (d : ErrorDetails) (r : Reason) :
    (info.connection_state = ConnectionState.Connected →
      Connection.handle_message (Message.Goodbye d r) info true =
        some ⟨info, [],
          [data_frame info.protocol (Message.Goodbye ErrorDetails.new Reason.GoodbyeAndOut)],
          false⟩) ∧
    (info.connection_state = ConnectionState.ShuttingDown →
      ∀ writeOk, Connection.handle_message (Message.Goodbye d r) info writeOk =
        some ⟨info, [], [], false⟩) ∧
    (∀ (m : Message) (writeOk : Bool) (out : HandleOutcome),
      Connection.handle_message m info writeOk = some out →
      out.continueLoop = false → ∃ d2 r2, m = Message.Goodbye d2 r2) := by
  refine ⟨fun hc => ?_, fun hc writeOk => ?_, fun m writeOk out h hcont => ?_⟩
  · simp [Connection.handle_message, hc, send_message_frames, send_message_result]
  · simp [Connection.handle_message, hc]
  · cases m with
    | Goodbye d2 r2 => exact ⟨d2, r2, rfl⟩
    | Subscribed rid sid =>
        simp only [Connection.handle_message] at h
        split at h <;>
          (simp only [Option.some.injEq] at h; subst h; simp at hcont)
    | Event sid pid det =>
        simp only [Connection.handle_message] at h
        split at h <;>
          (simp only [Option.some.injEq] at h; subst h; simp at hcont)
    | EventArgs sid pid det args =>
        simp only [Connection.handle_message] at h
        split at h <;>
          (simp only [Option.some.injEq] at h; subst h; simp at hcont)
    | EventKwArgs sid pid det args kwargs =>
        simp only [Connection.handle_message] at h
        split at h <;>
          (simp only [Option.some.injEq] at h; subst h; simp at hcont)
    | Hello realm det =>
        simp only [Connection.handle_message, Option.some.injEq] at h
        subst h; simp at hcont
    | Welcome sid det =>
        simp only [Connection.handle_message, Option.some.injEq] at h
        subst h; simp at hcont
    | Abort det r2 =>
        simp only [Connection.handle_message, Option.some.injEq] at h
        subst h; simp at hcont
    | Subscribe rid opts topic =>
        simp only [Connection.handle_message, Option.some.injEq] at h
        subst h; simp at hcont
    | Publish rid opts topic =>
        simp only [Connection.handle_message, Option.some.injEq] at h
        subst h; simp at hcont
    | PublishKwArgs rid opts topic args kwargs =>
        simp only [Connection.handle_message, Option.some.injEq] at h
        subst h; simp at hcont

/-- Witness for C3: in a concrete connected JSON session, a received
Goodbye is answered with a text-framed `Goodbye(GoodbyeAndOut)` and the
dispatch step returns false. -/
theorem goodbye_dispatch_witness :
    Connection.handle_message
        (Message.Goodbye ErrorDetails.new (Reason.Other "wamp.close.system_shutdown"))
        info0 true =
      some ⟨info0, [],
        [OutFrame.text (Message.Goodbye ErrorDetails.new Reason.GoodbyeAndOut)], false⟩ :=
  (goodbye_dispatch info0 ErrorDetails.new
      (Reason.Other "wamp.close.system_shutdown")).1 rfl

/-- Claim C9: an Event, EventArgs or EventKwArgs whose subscription id has
no entry in the active-subscriptions table leaves the whole session state
unchanged, invokes no callback, attempts no frame, and returns true. -/
theorem unknown_event_ignored (info : ConnectionInfo) (sid pid : ID)
    (det : EventDetails) (args : ArgList) (kwargs : Dict) (writeOk : Bool)
    (h : tableGet info.subscriptions sid = none) :
    Connection.handle_message (Message.Event sid pid det) info writeOk =
      some ⟨info, [], [], true⟩ ∧
    Connection.handle_message (Message.EventArgs sid pid det args) info writeOk =
      some ⟨info, [], [], true⟩ ∧
    Connection.handle_message (Message.EventKwArgs sid pid det args kwargs) info writeOk =
      some ⟨info, [], [], true⟩ := by
  refine ⟨?_, ?_, ?_⟩ <;> simp [Connection.handle_message, h]

/-- Witness for C9: a concrete event for an unknown subscription id on the
empty table is ignored. -/
theorem unknown_event_ignored_witness :
    tableGet info0.subscriptions 99 = none ∧
    Connection.handle_message (Message.Event 99 5 EventDetails.new) info0 true =
      some ⟨info0, [], [], true⟩ :=
  ⟨rfl, (unknown_event_ignored info0 99 5 EventDetails.new []
      [] true rfl).1⟩

/-- Second and later `shutdown()` calls are no-ops once the state has left
Connected. -/
theorem shutdown_noop_of_not_connected (c : Client)
    (h : c.connection_info.connection_state ≠ ConnectionState.Connected)
    (writeOk : Bool) : c.shutdown writeOk = (c, []) := by
  unfold Client.shutdown
  simp [h]

/-- Claim C6: calling `shutdown()` twice while Connected sends exactly one
Goodbye(SystemShutdown) frame and performs Connected→ShuttingDown exactly
once; the second call, and any call while not Connected, changes nothing
and sends nothing. -/
theorem shutdown_once (c : Client) (writeOk2 : Bool)
    (h : c.connection_info.connection_state = ConnectionState.Connected) :
    (c.shutdown true).2 =
      [data_frame c.connection_info.protocol
        (Message.Goodbye ErrorDetails.new Reason.SystemShutdown)] ∧
    (c.shutdown true).1 =
      { c with connection_info := { c.connection_info with
          connection_state := ConnectionState.ShuttingDown } } ∧
    ((c.shutdown true).1).shutdown writeOk2 = ((c.shutdown true).1, []) ∧
    (∀ c2 : Client,
      c2.connection_info.connection_state ≠ ConnectionState.Connected →
      ∀ writeOk, c2.shutdown writeOk = (c2, [])) := by
  have hframes : (c.shutdown true).2 =
      [data_frame c.connection_info.protocol
        (Message.Goodbye ErrorDetails.new Reason.SystemShutdown)] := by
    unfold Client.shutdown
    simp [h, client_send_message_eq, send_message_frames]
  have hstate : (c.shutdown true).1 =
      { c with connection_info := { c.connection_info with
          connection_state := ConnectionState.ShuttingDown } } := by
    unfold Client.shutdown
    simp [h]
  refine ⟨hframes, hstate, ?_, fun c2 hc2 writeOk => shutdown_noop_of_not_connected c2 hc2 writeOk⟩
  apply shutdown_noop_of_not_connected
  rw [hstate]
  simp

/-- Witness for C6: the concrete connected JSON client sends one text
Goodbye on the first `shutdown()` and the second call is a no-op. -/
theorem shutdown_once_witness :
    (client0.shutdown true).2 =
      [OutFrame.text (Message.Goodbye ErrorDetails.new Reason.SystemShutdown)] ∧
    ((client0.shutdown true).1).shutdown true = ((client0.shutdown true).1, []) :=
  ⟨(shutdown_once client0 true rfl).1, (shutdown_once client0 true rfl).2.2.1⟩

/-- Claim C10: when the Goodbye write inside `shutdown()` fails, the error
is discarded (`shutdown` returns nothing), the state still becomes
ShuttingDown after the best-effort close, and every later `shutdown()`
call is a no-op even though no Goodbye frame was written. -/
theorem shutdown_discards_send_error (c : Client)
    (h : c.connection_info.connection_state = ConnectionState.Connected) :
    (c.shutdown false).1 =
      { c with connection_info := { c.connection_info with
          connection_state := ConnectionState.ShuttingDown } } ∧
    (c.shutdown false).2 =
      [data_frame c.connection_info.protocol
        (Message.Goodbye ErrorDetails.new Reason.SystemShutdown), OutFrame.close] ∧
    (∀ writeOk, ((c.shutdown false).1).shutdown writeOk = ((c.shutdown false).1, [])) := by
  have hstate : (c.shutdown false).1 =
      { c with connection_info := { c.connection_info with
          connection_state := ConnectionState.ShuttingDown } } := by
    unfold Client.shutdown
    simp [h]
  refine ⟨hstate, ?_, fun writeOk => ?_⟩
  · unfold Client.shutdown
    simp [h, client_send_message_eq, send_message_frames]
  · apply shutdown_noop_of_not_connected
    rw [hstate]
    simp

/-- Witness for C10: on the concrete connected client, a failed Goodbye
write still flips the state to ShuttingDown and the next call is a no-op. -/
theorem shutdown_discards_send_error_witness :
    (client0.shutdown false).1 =
      { client0 with connection_info := { client0.connection_info with
          connection_state := ConnectionState.ShuttingDown } } ∧
    ((client0.shutdown false).1).shutdown true = ((client0.shutdown false).1, []) :=
  ⟨(shutdown_discards_send_error client0 rfl).1,
   (shutdown_discards_send_error client0 rfl).2.2 true⟩

/-- Counterexample to C7 as stated: in a connected session, when the
write of the reciprocal Goodbye inside the dispatch step fails, the code
calls `.unwrap()` on the error (client.rs line 364), which panics and
kills the Dispatch Loop thread — modelled by the `none` outcome — so a
failed send can abort the Dispatch Loop. -/
theorem goodbye_reciprocal_send_failure_panics :
    Connection.handle_message
      (Message.Goodbye ErrorDetails.new (Reason.Other "wamp.close.close_realm"))
      info0 false = none := by
  decide

/-- Claim C7 (amended): a failed frame write inside `send_message_json` or
`send_message_msgpack` is logged, followed by a best-effort close frame on
the same handle, and returned as an error to that caller; the Client API
sends (`subscribe`, `publish`) never change the lifecycle state and
surface the error to their caller only — but the dispatch step's own
reciprocal-Goodbye send unwraps its result, so a failure there panics the
Dispatch Loop thread. -/
theorem send_failure_behavior
    (m : Message) (c : Client) (topic : URI) (cb : Subscription)
    (args : ArgList) (kwargs : Dict) (d : ErrorDetails) (r : Reason)
    (p : String) (pend act : Table) :
    send_message_json false m =
      ([OutFrame.text m, OutFrame.close], Except.error ErrorKind.WebSocketError) ∧
    send_message_msgpack false m =
      ([OutFrame.binary m, OutFrame.close], Except.error ErrorKind.WebSocketError) ∧
    (∀ writeOk, ((c.subscribe writeOk topic cb).2.2).connection_info.connection_state =
      c.connection_info.connection_state) ∧
    (∀ writeOk, ((c.publish writeOk topic args kwargs).2.2).connection_info.connection_state =
      c.connection_info.connection_state) ∧
    (c.subscribe false topic cb).1 = Except.error ErrorKind.WebSocketError ∧
    (c.publish false topic args kwargs).1 = Except.error ErrorKind.WebSocketError ∧
    Connection.handle_message (Message.Goodbye d r)
      ⟨ConnectionState.Connected, pend, act, p⟩ false = none := by
  refine ⟨rfl, rfl, fun writeOk => rfl, fun writeOk => rfl, ?_, ?_, ?_⟩
  · simp [Client.subscribe, client_send_message_eq, send_message_result]
  · simp [Client.publish, client_send_message_eq, send_message_result]
  · simp [Connection.handle_message, send_message_result]

/-- Method `connect` either returns a client and spawns the dispatch loop, or
returns an error and spawns nothing. -/
theorem connect_cases (realm : URI) (protocols : Option (List String))
    (writeOk : Bool) (frames : List InFrame) :
    (∃ c, Connection.connect realm protocols writeOk frames = (Except.ok c, true)) ∨
    (∃ e, Connection.connect realm protocols writeOk frames = (Except.error e, false)) := by
  unfold Connection.connect
  dsimp only
  split
  all_goals try split
  all_goals first
    | exact Or.inl ⟨_, rfl⟩
    | exact Or.inr ⟨_, rfl⟩

/-- Claim C5: if the first application-level message after Hello is an
Abort, `connect` fails with ConnectionLost; and on every handshake failure
no Client is produced and no dispatch task is spawned. -/
theorem connect_abort_no_client (realm : URI) (protocols : Option (List String))
    (frames : List InFrame) (d : ErrorDetails) (r : Reason) :
    ((handle_welcome_message frames).2 = Except.ok (Message.Abort d r) →
      Connection.connect realm protocols true frames =
        (Except.error ErrorKind.ConnectionLost, false)) ∧
    (∀ (writeOk : Bool) (e : ErrorKind),
      (Connection.connect realm protocols writeOk frames).1 = Except.error e →
      (Connection.connect realm protocols writeOk frames).2 = false) := by
  constructor
  · intro hw
    unfold Connection.connect
    by_cases hp : choose_protocol protocols = WAMP_MSGPACK <;>
      simp [hp, send_message_msgpack, send_message_json, hw]
  · intro writeOk e h
    rcases connect_cases realm protocols writeOk frames with ⟨c, hc⟩ | ⟨e2, he⟩
    · rw [hc] at h
      exact absurd h (by simp)
    · rw [he]

/-- A concrete inbound stream whose first application message is an Abort
(after one ping, which is ponged). -/
def frames0 : List InFrame :=
  [InFrame.ping [1, 2],
   InFrame.text (Except.ok
     (Message.Abort ErrorDetails.new (Reason.Other "wamp.error.no_such_realm")))]

/-- Witness for C5: connecting against a peer that answers Hello with an
Abort yields ConnectionLost and spawns no loop. -/
theorem connect_abort_no_client_witness :
    Connection.connect (URI.new "realm1") (some [WAMP_JSON]) true frames0 =
      (Except.error ErrorKind.ConnectionLost, false) :=
  (connect_abort_no_client (URI.new "realm1") (some [WAMP_JSON]) frames0
      ErrorDetails.new (Reason.Other "wamp.error.no_such_realm")).1 rfl

/-- Every normal exit of the receive loop (read error, close frame,
goodbye-exchange completion, or stream end) runs the epilogue, so the
final state is Disconnected; a `none` result is the panic path, on which
the epilogue never runs. -/
theorem start_recv_loop_disconnected :
    ∀ (frames : List InFrame) (writeOk : Bool) (info info' : ConnectionInfo),
      Connection.start_recv_loop frames writeOk info = some info' →
      info'.connection_state = ConnectionState.Disconnected := by
  intro frames
  induction frames with
  | nil =>
      intro wk info info' h
      simp only [Connection.start_recv_loop, Option.some.injEq] at h
      subst h; rfl
  | cons f rest ih =>
      intro wk info info' h
      cases f with
      | readErr =>
          simp only [Connection.start_recv_loop, Option.some.injEq] at h
          subst h; rfl
      | close =>
          simp only [Connection.start_recv_loop, Option.some.injEq] at h
          subst h; rfl
      | text dec =>
          cases dec with
          | error e =>
              simp only [Connection.start_recv_loop] at h
              exact ih wk info info' h
          | ok m =>
              simp only [Connection.start_recv_loop] at h
              cases hh : Connection.handle_message m info wk with
              | none => simp [hh] at h
              | some out =>
                  simp only [hh] at h
                  by_cases hc : out.continueLoop
                  · rw [if_pos hc] at h
                    exact ih wk out.info info' h
                  · rw [if_neg hc] at h
                    simp only [Option.some.injEq] at h
                    subst h; rfl
      | binary dec =>
          cases dec with
          | none =>
              simp only [Connection.start_recv_loop] at h
              exact ih wk info info' h
          | some m =>
              simp only [Connection.start_recv_loop] at h
              cases hh : Connection.handle_message m info wk with
              | none => simp [hh] at h
              | some out =>
                  simp only [hh] at h
                  by_cases hc : out.continueLoop
                  · rw [if_pos hc] at h
                    exact ih wk out.info info' h
                  · rw [if_neg hc] at h
                    simp only [Option.some.injEq] at h
                    subst h; rfl
      | ping p =>
          simp only [Connection.start_recv_loop] at h
          exact ih wk info info' h
      | pong =>
          simp only [Connection.start_recv_loop] at h
          exact ih wk info info' h

/-- Dispatch via `handle_message` never changes the lifecycle state. -/
theorem handle_message_preserves_state :
    ∀ (m : Message) (info : ConnectionInfo) (writeOk : Bool) (out : HandleOutcome),
      Connection.handle_message m info writeOk = some out →
      out.info.connection_state = info.connection_state := by
  intro m info wk out h
  cases m with
  | Subscribed rid sid =>
      simp only [Connection.handle_message] at h
      split at h <;> (simp only [Option.some.injEq] at h; subst h; rfl)
  | Event sid pid det =>
      simp only [Connection.handle_message] at h
      split at h <;> (simp only [Option.some.injEq] at h; subst h; rfl)
  | EventArgs sid pid det args =>
      simp only [Connection.handle_message] at h
      split at h <;> (simp only [Option.some.injEq] at h; subst h; rfl)
  | EventKwArgs sid pid det args kwargs =>
      simp only [Connection.handle_message] at h
      split at h <;> (simp only [Option.some.injEq] at h; subst h; rfl)
  | Goodbye d2 r2 =>
      simp only [Connection.handle_message] at h
      split at h
      · split at h
        · simp only [Option.some.injEq] at h; subst h; rfl
        · exact absurd h (by simp)
      · simp only [Option.some.injEq] at h; subst h; rfl
      · simp only [Option.some.injEq] at h; subst h; rfl
  | Hello realm det =>
      simp only [Connection.handle_message, Option.some.injEq] at h
      subst h; rfl
  | Welcome sid det =>
      simp only [Connection.handle_message, Option.some.injEq] at h
      subst h; rfl
  | Abort det r2 =>
      simp only [Connection.handle_message, Option.some.injEq] at h
      subst h; rfl
  | Subscribe rid opts topic =>
      simp only [Connection.handle_message, Option.some.injEq] at h
      subst h; rfl
  | Publish rid opts topic =>
      simp only [Connection.handle_message, Option.some.injEq] at h
      subst h; rfl
  | PublishKwArgs rid opts topic args kwargs =>
      simp only [Connection.handle_message, Option.some.injEq] at h
      subst h; rfl

/-- Method `shutdown` never lowers the lifecycle rank. -/
theorem shutdown_state_monotone :
    ∀ (c : Client) (writeOk : Bool),
      ConnectionState.rank c.connection_info.connection_state ≤
        ConnectionState.rank ((c.shutdown writeOk).1.connection_info.connection_state) := by
  intro c wk
  unfold Client.shutdown
  by_cases hc : c.connection_info.connection_state = ConnectionState.Connected
  · simp [hc, ConnectionState.rank]
  · simp [hc]

/-- The loop epilogue never lowers the lifecycle rank. -/
theorem recv_loop_exit_monotone :
    ∀ info : ConnectionInfo,
      ConnectionState.rank info.connection_state ≤
        ConnectionState.rank (Connection.recv_loop_exit info).connection_state := by
  intro info
  cases h : info.connection_state <;>
    simp [Connection.recv_loop_exit, ConnectionState.rank, h]

/-- Claim C8: the lifecycle state never moves backward — `shutdown` and
the loop epilogue only raise the rank Connected < ShuttingDown <
Disconnected, and message dispatch never changes the state — and every
normal dispatch-loop exit (read error, close frame, goodbye-exchange
completion) leaves the state Disconnected unconditionally. -/
theorem lifecycle_forward_only :
    (∀ (frames : List InFrame) (writeOk : Bool) (info info' : ConnectionInfo),
      Connection.start_recv_loop frames writeOk info = some info' →
      info'.connection_state = ConnectionState.Disconnected) ∧
    (∀ (c : Client) (writeOk : Bool),
      ConnectionState.rank c.connection_info.connection_state ≤
        ConnectionState.rank ((c.shutdown writeOk).1.connection_info.connection_state)) ∧
    (∀ (m : Message) (info : ConnectionInfo) (writeOk : Bool) (out : HandleOutcome),
      Connection.handle_message m info writeOk = some out →
      out.info.connection_state = info.connection_state) ∧
    (∀ info : ConnectionInfo,
      ConnectionState.rank info.connection_state ≤
        ConnectionState.rank (Connection.recv_loop_exit info).connection_state) :=
  ⟨start_recv_loop_disconnected, shutdown_state_monotone,
   handle_message_preserves_state, recv_loop_exit_monotone⟩

/-- Witness for C8: a concrete loop run ending on a close frame leaves the
state Disconnected, and a concrete dispatch outcome keeps the state. -/
theorem lifecycle_forward_only_witness :
    (Connection.recv_loop_exit info0).connection_state = ConnectionState.Disconnected ∧
    (HandleOutcome.info ⟨info0, [], [], true⟩).connection_state = info0.connection_state :=
  ⟨lifecycle_forward_only.1 [InFrame.close] true info0 (Connection.recv_loop_exit info0) rfl,
   lifecycle_forward_only.2.2.1 (Message.Welcome 1 WelcomeDetails.new) info0 true
     ⟨info0, [], [], true⟩ rfl⟩

/-- The frames `subscribe` attempts, and its effect on the counter and
the negotiated tag. -/
theorem subscribe_frames_and_counter (c : Client) (writeOk : Bool) (t : URI)
    (cb : Subscription) :
    (c.subscribe writeOk t cb).2.1 =
      data_frame c.connection_info.protocol
          (Message.Subscribe ((c.max_session_id + 1) % U64_MOD) SubscribeOptions.new t)
        :: (if writeOk then [] else [OutFrame.close]) ∧
    (c.subscribe writeOk t cb).2.2.max_session_id = (c.max_session_id + 1) % U64_MOD := by
  refine ⟨?_, rfl⟩
  simp [Client.subscribe, Client.get_next_session_id, client_send_message_eq,
    send_message_frames]

/-- The frames `publish` attempts, and its effect on the counter. -/
theorem publish_frames_and_counter (c : Client) (writeOk : Bool) (t : URI)
    (args : ArgList) (kwargs : Dict) :
    (c.publish writeOk t args kwargs).2.1 =
      data_frame c.connection_info.protocol
          (Message.PublishKwArgs ((c.max_session_id + 1) % U64_MOD)
            (PublishOptions.new false) t args kwargs)
        :: (if writeOk then [] else [OutFrame.close]) ∧
    (c.publish writeOk t args kwargs).2.2.max_session_id = (c.max_session_id + 1) % U64_MOD := by
  refine ⟨?_, rfl⟩
  simp [Client.publish, Client.get_next_session_id, client_send_message_eq,
    send_message_frames]

theorem framesRequestIds_append (a b : List OutFrame) :
    framesRequestIds (a ++ b) = framesRequestIds a ++ framesRequestIds b := by
  simp [framesRequestIds, List.filterMap_append]

theorem framesRequestIds_data_cons (p : String) (m : Message) (rest : List OutFrame) :
    framesRequestIds (data_frame p m :: rest) =
      m.requestIdOf.toList ++ framesRequestIds rest := by
  by_cases hp : p = WAMP_MSGPACK <;>
    cases hm : m.requestIdOf <;>
      simp [data_frame, framesRequestIds, hp, hm, List.filterMap_cons]

theorem framesRequestIds_close_cons (rest : List OutFrame) :
    framesRequestIds (OutFrame.close :: rest) = framesRequestIds rest := by
  simp [framesRequestIds, List.filterMap_cons]

/-- One `subscribe` call surfaces exactly one request identifier: the
incremented counter, carried by the Subscribe frame. -/
theorem subscribe_request_ids (c : Client) (writeOk : Bool) (t : URI) (cb : Subscription) :
    framesRequestIds (c.subscribe writeOk t cb).2.1 =
      [(c.max_session_id + 1) % U64_MOD] := by
  rw [(subscribe_frames_and_counter c writeOk t cb).1, framesRequestIds_data_cons]
  cases writeOk <;>
    simp [Message.requestIdOf, framesRequestIds_close_cons, framesRequestIds]

/-- One `publish` call surfaces exactly one request identifier: the
incremented counter, carried by the PublishKwArgs frame. -/
theorem publish_request_ids (c : Client) (writeOk : Bool) (t : URI)
    (args : ArgList) (kwargs : Dict) :
    framesRequestIds (c.publish writeOk t args kwargs).2.1 =
      [(c.max_session_id + 1) % U64_MOD] := by
  rw [(publish_frames_and_counter c writeOk t args kwargs).1, framesRequestIds_data_cons]
  cases writeOk <;>
    simp [Message.requestIdOf, framesRequestIds_close_cons, framesRequestIds]

/-- Across any sequence of subscribe/publish calls the request ids on the
wire are the successive counter values. -/
theorem run_calls_ids (writeOk : Bool) :
    ∀ (calls : List ApiCall) (c : Client),
      framesRequestIds (run_calls writeOk calls c).1 =
        idSeq c.max_session_id calls.length := by
  intro calls
  induction calls with
  | nil => intro c; simp [run_calls, framesRequestIds, idSeq]
  | cons call rest ih =>
      intro c
      cases call with
      | subscribeCall t cb =>
          simp only [run_calls]
          rw [framesRequestIds_append, subscribe_request_ids, ih,
            (subscribe_frames_and_counter c writeOk t cb).2]
          simp [idSeq]
      | publishCall t args kwargs =>
          simp only [run_calls]
          rw [framesRequestIds_append, publish_request_ids, ih,
            (publish_frames_and_counter c writeOk t args kwargs).2]
          simp [idSeq]

/-- As long as the `u64` counter cannot wrap, the allocated ids count up
from one past the starting value. -/
theorem idSeq_eq_range' : ∀ (n s : Nat), s + n < U64_MOD →
    idSeq s n = List.range' (s + 1) n := by
  intro n
  induction n with
  | zero => intro s h; simp [idSeq]
  | succ n ih =>
      intro s h
      have hs : s + 1 < U64_MOD := by omega
      have hmod : (s + 1) % U64_MOD = s + 1 := Nat.mod_eq_of_lt hs
      simp only [idSeq, hmod]
      rw [ih (s + 1) (by omega), List.range'_succ]

/-- Claim C4: over every sequence of subscribe and publish calls shorter
than the `u64` wrap bound, the request identifiers a fresh Client
allocates are exactly `1, 2, …, n` — strictly increasing, without
repeats, the first one above zero. -/
theorem request_ids_strictly_increasing (calls : List ApiCall) (writeOk : Bool)
    (c : Client) (h0 : c.max_session_id = 0) (hlen : calls.length < U64_MOD) :
    framesRequestIds (run_calls writeOk calls c).1 = List.range' 1 calls.length ∧
    List.Pairwise (· < ·) (framesRequestIds (run_calls writeOk calls c).1) ∧
    (∀ i ∈ framesRequestIds (run_calls writeOk calls c).1, 0 < i) := by
  have hids : framesRequestIds (run_calls writeOk calls c).1 =
      List.range' 1 calls.length := by
    rw [run_calls_ids, h0, idSeq_eq_range' calls.length 0 (by omega)]
  refine ⟨hids, ?_, ?_⟩
  · rw [hids]
    exact List.pairwise_lt_range' 1 calls.length
  · rw [hids]
    intro i hi
    rw [List.mem_range'_1] at hi
    exact hi.1

/-- A concrete call sequence: subscribe, publish, subscribe. -/
def calls0 : List ApiCall :=
  [ApiCall.subscribeCall (URI.new "com.example.topic") sub0,
   ApiCall.publishCall (URI.new "com.example.topic") [] [],
   ApiCall.subscribeCall (URI.new "com.example.other") ⟨8⟩]

/-- Witness for C4: the fresh concrete client allocates ids 1, 2, 3 over
three calls. -/
theorem request_ids_strictly_increasing_witness :
    client0.max_session_id = 0 ∧ calls0.length < U64_MOD ∧
    framesRequestIds (run_calls true calls0 client0).1 = List.range' 1 calls0.length :=
  ⟨rfl, by decide,
   (request_ids_strictly_increasing calls0 true client0 rfl (by decide)).1⟩

/-! Table lemmas for the subscriber-ownership invariant. -/

theorem tableGet_mem : ∀ {t : Table} {k : ID} {v : Subscription},
    tableGet t k = some v → (k, v) ∈ t := by
  intro t
  induction t with
  | nil => intro k v h; simp [tableGet] at h
  | cons p rest ih =>
      intro k v h
      obtain ⟨k2, v2⟩ := p
      simp only [tableGet] at h
      by_cases hk : k2 = k
      · rw [if_pos hk] at h
        simp only [Option.some.injEq] at h
        subst hk; subst h
        exact List.mem_cons_self _ _
      · rw [if_neg hk] at h
        exact List.mem_cons_of_mem _ (ih h)

theorem tableErase_sublist : ∀ (t : Table) (k : ID), List.Sublist (tableErase t k) t := by
  intro t k
  induction t with
  | nil => simp [tableErase]
  | cons p rest ih =>
      obtain ⟨k2, v2⟩ := p
      simp only [tableErase]
      by_cases hk : k2 = k
      · rw [if_pos hk]; exact ih.cons _
      · rw [if_neg hk]; exact ih.cons₂ _

theorem mem_tableErase : ∀ {t : Table} {k : ID} {p : ID × Subscription},
    p ∈ tableErase t k → p ∈ t ∧ p.1 ≠ k := by
  intro t
  induction t with
  | nil => intro k p h; simp [tableErase] at h
  | cons q rest ih =>
      intro k p h
      obtain ⟨k2, v2⟩ := q
      simp only [tableErase] at h
      by_cases hk : k2 = k
      · rw [if_pos hk] at h
        obtain ⟨hm, hne⟩ := ih h
        exact ⟨List.mem_cons_of_mem _ hm, hne⟩
      · rw [if_neg hk] at h
        rcases List.mem_cons.mp h with he | hm
        · exact ⟨by rw [he]; exact List.mem_cons_self _ _, by rw [he]; exact hk⟩
        · obtain ⟨hm2, hne⟩ := ih hm
          exact ⟨List.mem_cons_of_mem _ hm2, hne⟩

theorem cbTokens_erase_sublist (t : Table) (k : ID) :
    List.Sublist (cbTokens (tableErase t k)) (cbTokens t) :=
  (tableErase_sublist t k).map _

/-- Moving the acknowledged subscriber from pending-requests into
active-subscriptions preserves the no-duplicate-ownership invariant. -/
theorem moved_tokens_nodup (pend act : Table) (rid sid : ID) (s : Subscription)
    (hget : tableGet pend rid = some s)
    (hnd : (cbTokens pend ++ cbTokens act).Nodup) :
    (cbTokens (tableErase pend rid) ++ cbTokens (tableInsert act sid s)).Nodup := by
  obtain ⟨hP, hA, hdisj⟩ := List.nodup_append.mp hnd
  have hmem : (rid, s) ∈ pend := tableGet_mem hget
  have hsP : s.callback ∈ cbTokens pend := List.mem_map.mpr ⟨(rid, s), hmem, rfl⟩
  have hsA : s.callback ∉ cbTokens act := fun hx => hdisj hsP hx
  have hsubP : List.Sublist (cbTokens (tableErase pend rid)) (cbTokens pend) :=
    cbTokens_erase_sublist pend rid
  have hsubA : List.Sublist (cbTokens (tableErase act sid)) (cbTokens act) :=
    cbTokens_erase_sublist act sid
  have hPe : (cbTokens (tableErase pend rid)).Nodup := List.Nodup.sublist hsubP hP
  have hAe : (cbTokens (tableErase act sid)).Nodup := List.Nodup.sublist hsubA hA
  have hsPe : s.callback ∉ cbTokens (tableErase pend rid) := by
    intro hx
    obtain ⟨p, hpmem, hpcb⟩ := List.mem_map.mp hx
    obtain ⟨hpt, hpk⟩ := mem_tableErase hpmem
    have hpe : p = (rid, s) := List.inj_on_of_nodup_map hP hpt hmem hpcb
    exact hpk (by rw [hpe])
  have hsAe : s.callback ∉ cbTokens (tableErase act sid) :=
    fun hx => hsA (hsubA.subset hx)
  have hins : cbTokens (tableInsert act sid s) =
      s.callback :: cbTokens (tableErase act sid) := rfl
  rw [hins, List.nodup_append]
  refine ⟨hPe, List.nodup_cons.mpr ⟨hsAe, hAe⟩, ?_⟩
  intro x hx1 hx2
  rcases List.mem_cons.mp hx2 with he | hm
  · subst he
    exact hsPe hx1
  · exact hdisj (hsubP.subset hx1) (hsubA.subset hm)

/-- The only table change `handle_message` ever makes is the
Subscribed-acknowledgment move of a pending subscriber. -/
theorem handle_message_info_shape (m : Message) (info : ConnectionInfo)
    (writeOk : Bool) (out : HandleOutcome)
    (h : Connection.handle_message m info writeOk = some out) :
    out.info = info ∨
    ∃ (rid sid : ID) (s : Subscription),
      tableGet info.subscription_requests rid = some s ∧
      out.info = { info with
        subscription_requests := tableErase info.subscription_requests rid,
        subscriptions := tableInsert info.subscriptions sid s } := by
  cases m with
  | Subscribed rid sid =>
      simp only [Connection.handle_message, tableRemove] at h
      split at h
      · rename_i s hs
        simp only [Option.some.injEq] at h
        subst h
        exact Or.inr ⟨rid, sid, s, hs, rfl⟩
      · simp only [Option.some.injEq] at h; subst h; exact Or.inl rfl
  | Event sid pid det =>
      simp only [Connection.handle_message] at h
      split at h <;> (simp only [Option.some.injEq] at h; subst h; exact Or.inl rfl)
  | EventArgs sid pid det args =>
      simp only [Connection.handle_message] at h
      split at h <;> (simp only [Option.some.injEq] at h; subst h; exact Or.inl rfl)
  | EventKwArgs sid pid det args kwargs =>
      simp only [Connection.handle_message] at h
      split at h <;> (simp only [Option.some.injEq] at h; subst h; exact Or.inl rfl)
  | Goodbye d r =>
      simp only [Connection.handle_message] at h
      split at h
      · split at h
        · simp only [Option.some.injEq] at h; subst h; exact Or.inl rfl
        · exact absurd h (by simp)
      · simp only [Option.some.injEq] at h; subst h; exact Or.inl rfl
      · simp only [Option.some.injEq] at h; subst h; exact Or.inl rfl
  | Hello realm det =>
      simp only [Connection.handle_message, Option.some.injEq] at h
      subst h; exact Or.inl rfl
  | Welcome sid det =>
      simp only [Connection.handle_message, Option.some.injEq] at h
      subst h; exact Or.inl rfl
  | Abort det r =>
      simp only [Connection.handle_message, Option.some.injEq] at h
      subst h; exact Or.inl rfl
  | Subscribe rid opts topic =>
      simp only [Connection.handle_message, Option.some.injEq] at h
      subst h; exact Or.inl rfl
  | Publish rid opts topic =>
      simp only [Connection.handle_message, Option.some.injEq] at h
      subst h; exact Or.inl rfl
  | PublishKwArgs rid opts topic args kwargs =>
      simp only [Connection.handle_message, Option.some.injEq] at h
      subst h; exact Or.inl rfl

/-- Claim C1: a Subscribed(requestId, subscriptionId) acknowledgment
removes the pending subscriber keyed by requestId and, if one was there,
inserts that same subscriber into active-subscriptions under
subscriptionId; with no pending entry nothing changes; and every dispatch
step preserves the invariant that each subscriber capability lives in at
most one of the two tables. -/
theorem subscribed_moves_subscriber (info : ConnectionInfo) (rid sid : ID)
    (writeOk : Bool) :
    (∀ s : Subscription, tableGet info.subscription_requests rid = some s →
      Connection.handle_message (Message.Subscribed rid sid) info writeOk =
        some ⟨{ info with
            subscription_requests := tableErase info.subscription_requests rid,
            subscriptions := tableInsert info.subscriptions sid s }, [], [], true⟩) ∧
    (tableGet info.subscription_requests rid = none →
      Connection.handle_message (Message.Subscribed rid sid) info writeOk =
        some ⟨info, [], [], true⟩) ∧
    (∀ (m : Message) (out : HandleOutcome), info.tokens.Nodup →
      Connection.handle_message m info writeOk = some out →
      out.info.tokens.Nodup ∧
      ∀ tok : Nat, ¬(tok ∈ cbTokens out.info.subscription_requests ∧
        tok ∈ cbTokens out.info.subscriptions)) := by
  refine ⟨fun s hs => ?_, fun hs => ?_, fun m out hnd h => ?_⟩
  · simp [Connection.handle_message, tableRemove, hs]
  · simp [Connection.handle_message, tableRemove, hs]
  · have hnodup : out.info.tokens.Nodup := by
      rcases handle_message_info_shape m info writeOk out h with he | ⟨r2, s2, sub, hg, he⟩
      · rw [he]; exact hnd
      · rw [he]
        simp only [ConnectionInfo.tokens] at hnd ⊢
        exact moved_tokens_nodup _ _ _ _ _ hg hnd
    refine ⟨hnodup, fun tok ⟨h1, h2⟩ => ?_⟩
    simp only [ConnectionInfo.tokens] at hnodup
    exact (List.nodup_append.mp hnodup).2.2 h1 h2

/-- A concrete session with one pending subscription request under id 3. -/
def info1 : ConnectionInfo := { info0 with subscription_requests := [(3, sub0)] }

/-- Witness for C1: acknowledging request 3 with subscription id 42 moves
the concrete subscriber from pending-requests to active-subscriptions,
and an acknowledgment for an unknown request changes nothing. -/
theorem subscribed_moves_subscriber_witness :
    tableGet info1.subscription_requests 3 = some sub0 ∧
    Connection.handle_message (Message.Subscribed 3 42) info1 true =
      some ⟨{ info1 with subscription_requests := [], subscriptions := [(42, sub0)] },
        [], [], true⟩ ∧
    Connection.handle_message (Message.Subscribed 9 42) info0 true =
      some ⟨info0, [], [], true⟩ :=
  ⟨rfl, (subscribed_moves_subscriber info1 3 42 true).1 sub0 rfl,
   (subscribed_moves_subscriber info0 9 42 true).2.1 rfl⟩

end WampRs
